import Mathlib

/-
Verification development for the macrogauge signal-classification core.

The Python source operates on pandas numeric columns whose entries are IEEE
doubles: ordinary numbers, NaN (produced by insufficient-history operations
such as `pct_change(12)` or `rolling(6)`), and signed infinities (produced by
division by zero).  We embed such a column entry as `PFloat`: NaN, a signed
infinity, or a finite value represented exactly as a rational.  All the
comparisons performed by the source (`<`, `<=`, `>`, `>=`) are false when
either operand is NaN, exactly as in IEEE arithmetic, which is what drives
the classification behaviour on undefined inputs.

Operations that raise in Python (`iloc` out of bounds raising IndexError,
`int(nan)` raising ValueError) are embedded in `Except String`.
-/

/-- Model of an IEEE double stored in a pandas numeric column: NaN, a signed
infinity (`inf true` is plus infinity, `inf false` is minus infinity), or a
finite value represented exactly as a rational. -/
inductive PFloat where
  | nan : PFloat
  | inf : Bool → PFloat
  | fin : ℚ → PFloat
deriving DecidableEq

namespace PFloat

/-- IEEE addition: NaN absorbs, infinities of opposite sign give NaN. -/
def add : PFloat → PFloat → PFloat
  | nan, _ => nan
  | _, nan => nan
  | inf a, inf b => if a = b then inf a else nan
  | inf a, fin _ => inf a
  | fin _, inf b => inf b
  | fin a, fin b => fin (a + b)

/-- IEEE negation. -/
def neg : PFloat → PFloat
  | nan => nan
  | inf b => inf (!b)
  | fin q => fin (-q)

/-- IEEE subtraction. -/
def sub (x y : PFloat) : PFloat := x.add y.neg

/-- IEEE multiplication: zero times infinity is NaN. -/
def mul : PFloat → PFloat → PFloat
  | nan, _ => nan
  | _, nan => nan
  | inf a, inf b => inf (a == b)
  | inf a, fin q => if q = 0 then nan else inf (a == decide (0 < q))
  | fin q, inf b => if q = 0 then nan else inf (b == decide (0 < q))
  | fin a, fin b => fin (a * b)

/-- IEEE division: a nonzero finite value divided by zero is a signed
infinity, zero divided by zero is NaN (the zero here is unsigned, as pandas
columns built from exact data carry plus zero). -/
def div : PFloat → PFloat → PFloat
  | nan, _ => nan
  | _, nan => nan
  | inf _, inf _ => nan
  | inf a, fin q => if q = 0 then inf a else inf (a == decide (0 < q))
  | fin _, inf _ => fin 0
  | fin a, fin b =>
      if b = 0 then (if a = 0 then nan else inf (decide (0 < a)))
      else fin (a / b)

/-- IEEE strict less-than: false whenever either side is NaN. -/
def ltB : PFloat → PFloat → Bool
  | nan, _ => false
  | _, nan => false
  | inf a, inf b => !a && b
  | inf a, fin _ => !a
  | fin _, inf b => b
  | fin a, fin b => decide (a < b)

/-- IEEE less-or-equal: false whenever either side is NaN. -/
def leB : PFloat → PFloat → Bool
  | nan, _ => false
  | _, nan => false
  | inf a, inf b => !a || b
  | inf a, fin _ => !a
  | fin _, inf b => b
  | fin a, fin b => decide (a ≤ b)

/-- IEEE strict greater-than. -/
def gtB (x y : PFloat) : Bool := ltB y x

/-- IEEE greater-or-equal. -/
def geB (x y : PFloat) : Bool := leB y x

/-- pandas `Series.clip(lo, hi)` on one entry: NaN stays NaN, infinities are
clamped to the corresponding bound, finite values are clamped to `[lo, hi]`. -/
def clip (lo hi : ℚ) : PFloat → PFloat
  | nan => nan
  | inf b => fin (if b then hi else lo)
  | fin q => fin (max lo (min hi q))

/-- Python `int(x)` on a float: truncation toward zero; NaN raises ValueError
and infinities raise OverflowError, both modelled by `none`. -/
def toInt : PFloat → Option ℤ
  | nan => none
  | inf _ => none
  | fin q => some (if q < 0 then Int.ceil q else Int.floor q)

end PFloat

/-- Round a rational to the nearest integer, ties to even, as Python `round`
does on an exactly-representable value. -/
def roundHalfEvenInt (q : ℚ) : ℤ :=
  if q - Int.floor q < 1/2 then Int.floor q
  else if 1/2 < q - Int.floor q then Int.floor q + 1
  else if Int.floor q % 2 = 0 then Int.floor q else Int.floor q + 1

/-- Python `round(x, 2)` on an exact rational value. -/
def round2q (q : ℚ) : ℚ := (roundHalfEvenInt (q * 100) : ℚ) / 100

/-- Python `round(x, 2)` lifted to column entries: `round` of NaN is NaN and
of an infinity is that infinity. -/
def PFloat.round2 : PFloat → PFloat
  | nan => nan
  | inf b => inf b
  | fin q => fin (round2q q)

/-- Mean of a numeric series, as `series.mean()` over fully observed data. -/
def seriesMean (xs : List ℚ) : ℚ := xs.sum / (xs.length : ℚ)

/-- Sample variance of a numeric series with one delta degree of freedom, the
square of `series.std()` (pandas default `ddof=1`).  For a singleton list the
rational convention divides by zero and yields `0`; the definitions using
`var1` always test the length separately, since pandas returns NaN there. -/
def var1 (xs : List ℚ) : ℚ :=
  ((xs.map (fun x => (x - seriesMean xs) ^ 2)).sum) / ((xs.length : ℚ) - 1)

/-- Clamp a rational to `[-3, 3]`, the finite-value case of `.clip(-3, 3)`. -/
def clip3 (q : ℚ) : ℚ := max (-3) (min 3 q)

/-- pandas positional indexing `series.iloc[i]` on a fully numeric series: a
negative position counts from the end; a position out of bounds raises
IndexError.  Embeds the `.iloc` accesses of src/utils/metrics.py. -/
def iloc (xs : List ℚ) (i : ℤ) : Except String ℚ :=
  if hneg : i < 0 then
    if h : (-i).toNat ≤ xs.length then
      .ok (xs.get ⟨xs.length - (-i).toNat, by omega⟩)
    else .error "IndexError"
  else
    if h : i.toNat < xs.length then .ok (xs.get ⟨i.toNat, h⟩)
    else .error "IndexError"

/-- Embeds `mom_change` (src/utils/metrics.py):
`series.iloc[-1] - series.iloc[-2]`. -/
def mom_change (series : List ℚ) : Except String ℚ :=
  match iloc series (-1), iloc series (-2) with
  | .error e, _ => .error e
  | _, .error e => .error e
  | .ok a, .ok b => .ok (a - b)

/-- Embeds `yoy_change` (src/utils/metrics.py):
`series.iloc[-1] - series.iloc[-13]`. -/
def yoy_change (series : List ℚ) : Except String ℚ :=
  match iloc series (-1), iloc series (-13) with
  | .error e, _ => .error e
  | _, .error e => .error e
  | .ok a, .ok b => .ok (a - b)

/-- One row of the dataframe consumed by `fx_state` (src/utils/fx_logic.py):
the exchange rate with its precomputed rolling z-score and month-over-month
percentage change, any of which may be NaN. -/
structure FxRow where
  usdzmw : PFloat
  zScore : PFloat
  fxMoM : PFloat
deriving DecidableEq

/-- Result record of `fx_state`: status, note, confidence and the rounded
metrics. -/
structure FxResult where
  status : String
  commentary : String
  confidence : ℤ
  rate : PFloat
  mom : PFloat
  z : PFloat
deriving DecidableEq

/-- Embeds the classification body of `fx_state` (src/utils/fx_logic.py) on
the latest row: `z > 2 or (z > 1.5 and mom > 2)` gives red, else
`z > 1 or mom > 1` gives amber, else green; metrics are rounded to two
decimals. -/
def fxStateRow (latest : FxRow) : FxResult :=
  let z := latest.zScore
  let mom := latest.fxMoM
  if z.gtB (.fin 2) || (z.gtB (.fin (3/2)) && mom.gtB (.fin 2)) then
    { status := "red"
      commentary := "Kwacha under stress with sharp depreciation and elevated volatility"
      confidence := 85
      rate := latest.usdzmw.round2, mom := mom.round2, z := z.round2 }
  else if z.gtB (.fin 1) || mom.gtB (.fin 1) then
    { status := "amber"
      commentary := "FX pressures elevated amid seasonal demand and volatility"
      confidence := 70
      rate := latest.usdzmw.round2, mom := mom.round2, z := z.round2 }
  else
    { status := "green"
      commentary := "FX trading within normal volatility bands"
      confidence := 90
      rate := latest.usdzmw.round2, mom := mom.round2, z := z.round2 }

/-- Embeds `fx_state` on a dataframe: `df.iloc[-1]` raises IndexError on an
empty frame, otherwise the latest row is classified. -/
def fx_state (df : List FxRow) : Except String FxResult :=
  match df.getLast? with
  | none => .error "IndexError"
  | some latest => .ok (fxStateRow latest)

/-- Result record of `inflation_state`. -/
structure InflationResult where
  status : String
  commentary : String
  confidence : ℤ
  yoy : PFloat
  mom : PFloat
deriving DecidableEq

/-- Embeds the classification body of `inflation_state`
(src/utils/inflation_logic.py) on the latest YoY and MoM values, with band
bounds `b0 = band[0]` and `b1 = band[1]` (defaults 6 and 8): red if
`yoy > 12 or (mom > 0.4 and yoy > band[1])`, else amber if
`band[1] < yoy <= 12`, else green if `band[0] <= yoy <= band[1]`, else green
with the below-target note. -/
def inflationStateRow (b0 b1 : ℚ) (yoy mom : PFloat) : InflationResult :=
  if yoy.gtB (.fin 12) || (mom.gtB (.fin (2/5)) && yoy.gtB (.fin b1)) then
    { status := "red"
      commentary := "Inflation is materially above target and re-accelerating"
      confidence := 85, yoy := yoy.round2, mom := mom.round2 }
  else if (PFloat.fin b1).ltB yoy && yoy.leB (.fin 12) then
    { status := "amber"
      commentary := "Inflation remains above target with limited disinflation progress"
      confidence := 70, yoy := yoy.round2, mom := mom.round2 }
  else if (PFloat.fin b0).leB yoy && yoy.leB (.fin b1) then
    { status := "green"
      commentary := "Inflation is within the central bank target range"
      confidence := 90, yoy := yoy.round2, mom := mom.round2 }
  else
    { status := "green"
      commentary := "Inflation is below target with easing price pressures"
      confidence := 75, yoy := yoy.round2, mom := mom.round2 }

/-- One row of the inflation dataframe: the `YoY` and `MoM` columns. -/
structure InflationRow where
  yoy : PFloat
  mom : PFloat
deriving DecidableEq

/-- Embeds `inflation_state`: both `iloc[-1]` and `iloc[-2]` are taken (the
previous row is bound but never used), so a frame with fewer than two rows
raises IndexError before any classification. -/
def inflation_state (df : List InflationRow) (b0 b1 : ℚ) :
    Except String InflationResult :=
  if df.length < 2 then .error "IndexError"
  else
    match df.getLast? with
    | none => .error "IndexError"
    | some latest => .ok (inflationStateRow b0 b1 latest.yoy latest.mom)

/-- pandas `.replace(0, 1e-6)` applied to a standard-deviation column entry
(`none` models the NaN a rolling window of a single observation produces):
only an exact zero is replaced, NaN passes through.  Embeds the guards at
src/utils/fx_stress.py lines 24, 27, 28 and 34. -/
def replaceZeroEps : Option ℚ → Option ℚ
  | none => none
  | some s => some (if s = 0 then 1/1000000 else s)

/-- One row of the component dataframe fed to `compute_fx_stress_index`
(src/utils/fx_stress.py): the four z-scored components, taken fully
observed (numeric). -/
structure FxZRow where
  zPrice : ℚ
  zVol : ℚ
  zMoM : ℚ
  zReserves : ℚ
deriving DecidableEq

/-- One row of `compute_fx_stress_index` (src/utils/fx_stress.py lines
46-60): the weighted sum `0.35*Z_Price + 0.25*Z_Vol + 0.25*Z_MoM +
0.15*Z_Reserves`, with only the final sum clipped to `[-3, 3]`. -/
def fxStressIndexRow (r : FxZRow) : ℚ :=
  clip3 (35/100 * r.zPrice + 25/100 * r.zVol + 25/100 * r.zMoM +
    15/100 * r.zReserves)

/-- Embeds `compute_fx_stress_index`: the `FX_Stress_Index` column. -/
def compute_fx_stress_index (df : List FxZRow) : List ℚ :=
  df.map fxStressIndexRow

/-- Written from the claim wording, for comparison with the code: clip each
standardized component to `[-3, 3]` before weighting, then clip the weighted
sum as the code does. -/
def fxStressIndexRowSpec (r : FxZRow) : ℚ :=
  clip3 (35/100 * clip3 r.zPrice + 25/100 * clip3 r.zVol +
    25/100 * clip3 r.zMoM + 15/100 * clip3 r.zReserves)

/-- Whether the entries of `zscore(series)` in `analyze_fiscal_stress`
(src/utils/economic_analysis.py lines 573-574) are defined floats.  That
`zscore` divides the centred series by `series.std()` with no guard: the
standard deviation is NaN when fewer than two observations exist, and is
zero exactly when the sample variance `var1` is zero, in which case every
centred entry is zero and the division yields NaN (0/0).  Otherwise the
standard deviation is a positive real and every entry is a defined float. -/
def zscoreEntriesDefined (xs : List ℚ) : Bool :=
  decide (2 ≤ xs.length) && decide (var1 xs ≠ 0)

/-- Per-row Fiscal Stress Index from the standardized (pre-clip) component
values (src/utils/economic_analysis.py lines 576-587): each z column is
clipped to `[-3, 3]` and the index is `(z_yield + z_rollover + z_issuance)/3`. -/
def fiscalStressIndexRow (zYield zRollover zIssuance : PFloat) : PFloat :=
  (((zYield.clip (-3) 3).add (zRollover.clip (-3) 3)).add
    (zIssuance.clip (-3) 3)).div (.fin 3)

/-- Embeds `label_stress` (src/utils/economic_analysis.py lines 592-602). -/
def label_stress (x : PFloat) : String :=
  if x.leB (.fin (-(1/2))) then "Accommodative"
  else if x.leB (.fin (1/2)) then "Neutral"
  else if x.leB (.fin (3/2)) then "Tightening"
  else if x.leB (.fin (5/2)) then "Stressed"
  else "Critical"

/-- The elevated-risk commentary suffix appended when the latest regime is
Stressed or Critical (src/utils/economic_analysis.py lines 617-622). -/
def fiscalCommentaryStressed : String :=
  "This reflects rising funding costs, elevated rollover exposure, and increased issuance pressure, which together signal heightened vulnerability in domestic debt markets."

/-- The commentary suffix for the Tightening regime (lines 623-627). -/
def fiscalCommentaryTightening : String :=
  "Financing conditions are tightening, suggesting emerging cost and liquidity pressures that warrant close monitoring."

/-- The commentary suffix for the remaining regimes (lines 628-632). -/
def fiscalCommentarySupportive : String :=
  "Domestic financing conditions remain broadly supportive, with manageable costs and refinancing risks."

/-- Selection of the commentary template from the latest regime label
(src/utils/economic_analysis.py lines 617-632). -/
def selectFiscalCommentary (regime : String) : String :=
  if regime = "Stressed" ∨ regime = "Critical" then fiscalCommentaryStressed
  else if regime = "Tightening" then fiscalCommentaryTightening
  else fiscalCommentarySupportive

/-- One row of the T-bill/bond rates table consumed by
`compute_recession_probability`: the observation date (an integer key, since
only the sort order matters) with the `91 days` and `10 year` yields, taken
fully observed. -/
structure RatesRow where
  date : ℤ
  d91 : ℚ
  tenYear : ℚ
deriving DecidableEq

/-- Insertion into a date-sorted list, auxiliary to `sortRates`. -/
def insertByDate (r : RatesRow) : List RatesRow → List RatesRow
  | [] => [r]
  | x :: xs => if r.date < x.date then r :: x :: xs else x :: insertByDate r xs

/-- Embeds `df.sort_values("Date")` as an insertion sort on the date key. -/
def sortRates (df : List RatesRow) : List RatesRow := df.foldr insertByDate []

/-- The `Term_Spread` column value: the `10 year` yield minus the `91 days`
yield (src/utils/economic_analysis.py line 659). -/
def termSpread (r : RatesRow) : ℚ := r.tenYear - r.d91

/-- Last entry of `series.pct_change(12) * 100` on a fully numeric series:
NaN while fewer than 13 observations exist, otherwise the percentage change
against the observation 12 periods back, through IEEE division (an infinity
when that base observation is zero). -/
def shortRateYoY (xs : List ℚ) : PFloat :=
  if h : 13 ≤ xs.length then
    ((PFloat.fin (xs.get ⟨xs.length - 1, by omega⟩ -
        xs.get ⟨xs.length - 13, by omega⟩)).div
      (.fin (xs.get ⟨xs.length - 13, by omega⟩))).mul (.fin 100)
  else .nan

/-- Last entry of `(Term_Spread < 0).rolling(6).sum()`: NaN while fewer than
6 observations exist (`min_periods` defaults to the window size), otherwise
the count of negative spreads among the last six. -/
def inversionMonthsLast (spreads : List ℚ) : PFloat :=
  if 6 ≤ spreads.length then
    .fin (((spreads.drop (spreads.length - 6)).countP
      (fun q => decide (q < 0)) : ℕ) : ℚ)
  else .nan

/-- Inversion depth sub-score (src/utils/economic_analysis.py lines
675-682). -/
def depthScore (latestSpread : ℚ) : ℚ :=
  if latestSpread < -1 then 1
  else if latestSpread < -(1/2) then 7/10
  else if latestSpread < 0 then 2/5
  else 0

/-- Inversion duration sub-score (lines 685-690); a NaN month count compares
false on both thresholds and scores 0. -/
def durationScore (inversionMonths : PFloat) : ℚ :=
  if inversionMonths.geB (.fin 4) then 1
  else if inversionMonths.geB (.fin 2) then 3/5
  else 0

/-- Policy pressure sub-score (lines 693-697); a NaN YoY change compares
false on both thresholds and scores 0. -/
def policyScore (shortRateYoYValue : PFloat) : ℚ :=
  if shortRateYoYValue.gtB (.fin 30) then 1
  else if shortRateYoYValue.gtB (.fin 15) then 1/2
  else 0

/-- Probability aggregation (lines 702-706):
`(0.4*depth + 0.4*duration + 0.2*policy) * 100`. -/
def recessionProbability (latestSpread : ℚ) (invM yoyV : PFloat) : ℚ :=
  (2/5 * depthScore latestSpread + 2/5 * durationScore invM +
    1/5 * policyScore yoyV) * 100

/-- Risk band (lines 711-718). -/
def riskBand (p : ℚ) : String :=
  if 60 ≤ p then "High" else if 40 ≤ p then "Elevated"
  else if 20 ≤ p then "Moderate" else "Low"

/-- Result record of `compute_recession_probability`.  The commentary string
interpolates `int(inversion_months)`; that converted integer is the
`inversionMonthsInt` field, and its failure (ValueError on a NaN month
count) is the only partial step of the commentary construction. -/
structure RecessionResult where
  probability : ℚ
  band : String
  latestSpread : ℚ
  inversionMonths : PFloat
  inversionMonthsInt : ℤ
deriving DecidableEq

/-- Scoring, banding and the commentary integer conversion from the three
derived metrics (src/utils/economic_analysis.py lines 670-733). -/
def recessionFromMetrics (latestSpread : ℚ) (invM yoyV : PFloat) :
    Except String RecessionResult :=
  match invM.toInt with
  | none => .error "ValueError"
  | some m =>
      .ok { probability := recessionProbability latestSpread invM yoyV
            band := riskBand (recessionProbability latestSpread invM yoyV)
            latestSpread := latestSpread
            inversionMonths := invM
            inversionMonthsInt := m }

/-- Embeds `compute_recession_probability` (src/utils/economic_analysis.py
lines 649-733): sort by date, build the term-spread column, take the latest
spread (IndexError on an empty table), the last rolling 6-month inversion
count and the last 12-period percentage change of the `91 days` yield, then
score, band and build the commentary. -/
def compute_recession_probability (df : List RatesRow) :
    Except String RecessionResult :=
  match (sortRates df).getLast? with
  | none => .error "IndexError"
  | some lastRow =>
      recessionFromMetrics (termSpread lastRow)
        (inversionMonthsLast ((sortRates df).map termSpread))
        (shortRateYoY ((sortRates df).map RatesRow.d91))

/-- Concrete thirteen-month rates table witnessing the high-recession
scenario: the latest term spread is -1.2 percentage points, five of the last
six monthly spreads are negative, and the 91-day yield rose 10 percent year
over year (from 10 to 11). -/
def ratesScenarioHigh : List RatesRow :=
  [⟨0, 10, 11⟩, ⟨1, 10, 11⟩, ⟨2, 10, 11⟩, ⟨3, 10, 11⟩, ⟨4, 10, 11⟩,
   ⟨5, 10, 11⟩, ⟨6, 10, 11⟩, ⟨7, 10, 21/2⟩, ⟨8, 10, 19/2⟩, ⟨9, 10, 19/2⟩,
   ⟨10, 10, 19/2⟩, ⟨11, 10, 19/2⟩, ⟨12, 11, 49/5⟩]

/-- Concrete five-month rates table: enough rows for a defined latest term
spread, but too few for the rolling six-month inversion count or the
twelve-period YoY change. -/
def ratesFiveMonths : List RatesRow :=
  [⟨1, 9, 10⟩, ⟨2, 9, 10⟩, ⟨3, 9, 10⟩, ⟨4, 9, 10⟩, ⟨5, 9, 10⟩]

theorem iloc_last_ofNat (xs : List ℚ) (k : ℕ) (hk : 0 < k) :
    iloc xs (-(k : ℤ)) =
      if h : k ≤ xs.length then .ok (xs.get ⟨xs.length - k, by omega⟩)
      else .error "IndexError" := by
  unfold iloc
  rw [dif_pos (by omega : -(k : ℤ) < 0)]
  have e : (-(-(k : ℤ))).toNat = k := by omega
  simp only [e]

/-- Claim C2, counterexample to the error-handling part as stated: on a
one-observation series `mom_change` raises IndexError (it does not return an
undefined/NaN value), and on a twelve-observation series `yoy_change`
likewise raises. -/
theorem mom_yoy_change_short_series_raise :
    mom_change [(5:ℚ)] = .error "IndexError" ∧
    yoy_change [(1:ℚ),2,3,4,5,6,7,8,9,10,11,12] = .error "IndexError" := by
  constructor
  · norm_num [mom_change, iloc]
  · norm_num [yoy_change, iloc]

/-- Claim C2 as amended: `mom_change` raises IndexError on a series with
fewer than 2 observations and otherwise returns
`series[-1] - series[-2]`; `yoy_change` raises IndexError on fewer than 13
observations and otherwise returns `series[-1] - series[-13]`.  Neither
returns an undefined/NaN value on short input. -/
theorem mom_yoy_change_spec (xs : List ℚ) :
    (xs.length < 2 → mom_change xs = .error "IndexError") ∧
    (∀ _ : 2 ≤ xs.length,
      mom_change xs = .ok (xs.get ⟨xs.length - 1, by omega⟩ -
        xs.get ⟨xs.length - 2, by omega⟩)) ∧
    (xs.length < 13 → yoy_change xs = .error "IndexError") ∧
    (∀ _ : 13 ≤ xs.length,
      yoy_change xs = .ok (xs.get ⟨xs.length - 1, by omega⟩ -
        xs.get ⟨xs.length - 13, by omega⟩)) := by
  have e1 := iloc_last_ofNat xs 1 (by omega)
  have e2 := iloc_last_ofNat xs 2 (by omega)
  have e13 := iloc_last_ofNat xs 13 (by omega)
  norm_num at e1 e2 e13
  refine ⟨?_, ?_, ?_, ?_⟩
  · intro h
    unfold mom_change
    rw [e1, e2, dif_neg (by omega : ¬(2 ≤ xs.length))]
    by_cases h1 : 1 ≤ xs.length
    · rw [dif_pos h1]
    · rw [dif_neg h1]
  · intro h
    unfold mom_change
    rw [e1, e2, dif_pos (by omega : 1 ≤ xs.length), dif_pos h]
    simp [List.get_eq_getElem]
  · intro h
    unfold yoy_change
    rw [e1, e13, dif_neg (by omega : ¬(13 ≤ xs.length))]
    by_cases h1 : 1 ≤ xs.length
    · rw [dif_pos h1]
    · rw [dif_neg h1]
  · intro h
    unfold yoy_change
    rw [e1, e13, dif_pos (by omega : 1 ≤ xs.length), dif_pos h]
    simp [List.get_eq_getElem]

/-- Witness for `mom_yoy_change_spec` at concrete inputs. -/
theorem mom_yoy_change_spec_witness :
    mom_change [(1:ℚ), 5] =
      .ok ([(1:ℚ), 5].get ⟨[(1:ℚ), 5].length - 1, by norm_num⟩ -
        [(1:ℚ), 5].get ⟨[(1:ℚ), 5].length - 2, by norm_num⟩) ∧
    mom_change [(7:ℚ)] = .error "IndexError" ∧
    yoy_change [(5:ℚ)] = .error "IndexError" :=
  ⟨(mom_yoy_change_spec [(1:ℚ), 5]).2.1 (by norm_num),
   (mom_yoy_change_spec [(7:ℚ)]).1 (by norm_num),
   (mom_yoy_change_spec [(5:ℚ)]).2.2.1 (by norm_num)⟩

/-- Claim C3, counterexample to the guard as stated: the `zscore` helper of
`analyze_fiscal_stress` has no epsilon substitution, so on a
zero-standard-deviation series (three equal observations) its entries are
undefined NaN values rather than defined extreme values. -/
theorem fiscal_zscore_zero_std_counterexample :
    var1 [(1:ℚ), 1, 1] = 0 ∧ zscoreEntriesDefined [(1:ℚ), 1, 1] = false := by
  constructor
  · norm_num [var1, seriesMean]
  · norm_num [zscoreEntriesDefined, var1, seriesMean]

/-- Claim C3 as amended: the FX stress builder replaces an exactly zero
rolling standard deviation by the epsilon 1e-6 (so a guarded denominator is
never zero, and NaN passes through untouched), but the Fiscal Stress Index
`zscore` is unguarded: a zero sample variance yields undefined NaN entries,
while a nonzero variance on at least two observations yields defined
entries.  In both builders division never raises. -/
theorem std_guard_spec :
    (∀ s : Option ℚ, replaceZeroEps s ≠ some 0) ∧
    replaceZeroEps (some 0) = some (1/1000000) ∧
    (∀ xs : List ℚ, var1 xs = 0 → zscoreEntriesDefined xs = false) ∧
    (∀ xs : List ℚ, 2 ≤ xs.length → var1 xs ≠ 0 →
      zscoreEntriesDefined xs = true) := by
  refine ⟨?_, by norm_num [replaceZeroEps], ?_, ?_⟩
  · intro s
    match s with
    | none => simp [replaceZeroEps]
    | some q =>
      simp only [replaceZeroEps]
      split
      · norm_num
      · next h => simp [h]
  · intro xs h
    simp [zscoreEntriesDefined, h]
  · intro xs h1 h2
    simp [zscoreEntriesDefined, h1, h2]

/-- Witness for `std_guard_spec` at concrete inputs. -/
theorem std_guard_spec_witness :
    zscoreEntriesDefined [(1:ℚ), 1, 1] = false ∧
    zscoreEntriesDefined [(1:ℚ), 2, 3] = true :=
  ⟨std_guard_spec.2.2.1 [(1:ℚ), 1, 1] (by norm_num [var1, seriesMean]),
   std_guard_spec.2.2.2 [(1:ℚ), 2, 3] (by norm_num)
     (by norm_num [var1, seriesMean])⟩

theorem clip3_bounds (q : ℚ) : -3 ≤ clip3 q ∧ clip3 q ≤ 3 := by
  unfold clip3
  exact ⟨le_max_left _ _, max_le (by norm_num) (min_le_left _ _)⟩

/-- Claim C4, counterexample as stated: `compute_fx_stress_index` does not
clip its components before weighting.  On the row with raw z-scores
(50, -10, -10, -20) the code gives index 3, while clipping each component
to `[-3, 3]` before weighting (the claimed behaviour) gives -0.9; the
extreme component magnitude 50 therefore does leak into the weighting. -/
theorem fx_component_clip_counterexample :
    fxStressIndexRow ⟨50, -10, -10, -20⟩ = 3 ∧
    fxStressIndexRowSpec ⟨50, -10, -10, -20⟩ = -(9/10) ∧
    fxStressIndexRow ⟨50, -10, -10, -20⟩ ≠
      fxStressIndexRowSpec ⟨50, -10, -10, -20⟩ := by
  refine ⟨?_, ?_, ?_⟩ <;>
    norm_num [fxStressIndexRow, fxStressIndexRowSpec, clip3]

/-- Claim C4 as amended: in `compute_fx_stress_index` only the weighted sum
is clipped to `[-3, 3]` (so the published index is bounded, but component
contributions are not individually bounded by 3), there is a row on which
this differs from clipping each component first, and in
`analyze_fiscal_stress` each standardized component is clipped to `[-3, 3]`
before the unweighted average. -/
theorem fx_stress_clipping_spec :
    (∀ r : FxZRow,
      fxStressIndexRow r =
        clip3 (35/100 * r.zPrice + 25/100 * r.zVol + 25/100 * r.zMoM +
          15/100 * r.zReserves) ∧
      -3 ≤ fxStressIndexRow r ∧ fxStressIndexRow r ≤ 3) ∧
    (∃ r : FxZRow, fxStressIndexRow r ≠ fxStressIndexRowSpec r) ∧
    (∀ zy zr zi : ℚ,
      fiscalStressIndexRow (.fin zy) (.fin zr) (.fin zi) =
        .fin ((clip3 zy + clip3 zr + clip3 zi) / 3)) := by
  refine ⟨?_, ⟨⟨50, -10, -10, -20⟩, ?_⟩, ?_⟩
  · intro r
    exact ⟨rfl, clip3_bounds _⟩
  · norm_num [fxStressIndexRow, fxStressIndexRowSpec, clip3]
  · intro zy zr zi
    norm_num [fiscalStressIndexRow, PFloat.clip, PFloat.add, PFloat.div,
      clip3]

/-- Claim C5, counterexample as stated: a NaN input is assigned to a band
after all.  `fx_state` on a NaN z-score and NaN MoM classifies green (the
lowest band), and `label_stress` on a NaN index returns Critical. -/
theorem nan_band_counterexample :
    (fxStateRow ⟨.nan, .nan, .nan⟩).status = "green" ∧
    label_stress .nan = "Critical" :=
  ⟨rfl, rfl⟩

/-- Claim C5 as amended: there is no distinct no-classification outcome.
A NaN value fails every IEEE threshold comparison, so the classifiers fall
through to their else branch: `fx_state` returns green with confidence 90
(the lowest band), `label_stress` returns Critical (the highest band), and
`inflation_state` returns green with the below-target note. -/
theorem nan_band_spec :
    (∀ rate : PFloat, (fxStateRow ⟨rate, .nan, .nan⟩).status = "green" ∧
      (fxStateRow ⟨rate, .nan, .nan⟩).confidence = 90) ∧
    label_stress .nan = "Critical" ∧
    (∀ b0 b1 : ℚ, (inflationStateRow b0 b1 .nan .nan).status = "green" ∧
      (inflationStateRow b0 b1 .nan .nan).commentary =
        "Inflation is below target with easing price pressures") := by
  exact ⟨fun rate => ⟨rfl, rfl⟩, rfl, fun b0 b1 => ⟨rfl, rfl⟩⟩

/-- Claim C7: in `analyze_fiscal_stress` the Fiscal Stress Index row value is
the unweighted average of the three clipped sub-components; the regime ladder
on a defined index value has exactly the cut points -0.5 / 0.5 / 1.5 / 2.5
separating Accommodative, Neutral, Tightening, Stressed and Critical; and
whenever the clipped components average to 1.8 the regime is Stressed and the
elevated-risk commentary template (the Stressed/Critical branch) is
selected. -/
theorem fiscal_regime_spec :
    (∀ zy zr zi : ℚ,
      fiscalStressIndexRow (.fin zy) (.fin zr) (.fin zi) =
        .fin ((clip3 zy + clip3 zr + clip3 zi) / 3)) ∧
    (∀ x : ℚ, label_stress (.fin x) =
      if x ≤ -(1/2) then "Accommodative"
      else if x ≤ 1/2 then "Neutral"
      else if x ≤ 3/2 then "Tightening"
      else if x ≤ 5/2 then "Stressed"
      else "Critical") ∧
    (∀ zy zr zi : ℚ, (clip3 zy + clip3 zr + clip3 zi) / 3 = 9/5 →
      label_stress (fiscalStressIndexRow (.fin zy) (.fin zr) (.fin zi)) =
        "Stressed" ∧
      selectFiscalCommentary
        (label_stress (fiscalStressIndexRow (.fin zy) (.fin zr) (.fin zi))) =
        fiscalCommentaryStressed) := by
  have hrow : ∀ zy zr zi : ℚ,
      fiscalStressIndexRow (.fin zy) (.fin zr) (.fin zi) =
        .fin ((clip3 zy + clip3 zr + clip3 zi) / 3) := by
    intro zy zr zi
    norm_num [fiscalStressIndexRow, PFloat.clip, PFloat.add, PFloat.div, clip3]
  refine ⟨hrow, ?_, ?_⟩
  · intro x
    simp only [label_stress, PFloat.leB, decide_eq_true_eq]
  · intro zy zr zi h
    rw [hrow, h]
    constructor
    · norm_num [label_stress, PFloat.leB]
    · norm_num [label_stress, PFloat.leB, selectFiscalCommentary]

/-- Witness for `fiscal_regime_spec` at components whose clipped z-scores
average to exactly 1.8. -/
theorem fiscal_regime_spec_witness :
    label_stress (fiscalStressIndexRow (.fin 2) (.fin 2) (.fin (7/5))) =
      "Stressed" ∧
    selectFiscalCommentary
      (label_stress (fiscalStressIndexRow (.fin 2) (.fin 2) (.fin (7/5)))) =
      fiscalCommentaryStressed :=
  fiscal_regime_spec.2.2 2 2 (7/5) (by norm_num [clip3])

/-- Claim C8: `fx_state` classifies the latest observation red exactly when
`z > 2 or (z > 1.5 and mom > 2)`, amber exactly when not red and
`z > 1 or mom > 1`, green otherwise; and on rolling z-score 2.3 with MoM
change 2.5 the status is red with confidence 85. -/
theorem fx_state_spec :
    (∀ (rate : PFloat) (z mom : ℚ),
      ((fxStateRow ⟨rate, .fin z, .fin mom⟩).status = "red" ↔
        (2 < z ∨ (3/2 < z ∧ 2 < mom))) ∧
      ((fxStateRow ⟨rate, .fin z, .fin mom⟩).status = "amber" ↔
        (¬(2 < z ∨ (3/2 < z ∧ 2 < mom)) ∧ (1 < z ∨ 1 < mom))) ∧
      ((fxStateRow ⟨rate, .fin z, .fin mom⟩).status = "green" ↔
        (¬(2 < z ∨ (3/2 < z ∧ 2 < mom)) ∧ ¬(1 < z ∨ 1 < mom)))) ∧
    ((fxStateRow ⟨.fin 27, .fin (23/10), .fin (5/2)⟩).status = "red" ∧
      (fxStateRow ⟨.fin 27, .fin (23/10), .fin (5/2)⟩).confidence = 85) := by
  have hra : ¬("red" = "amber") := by decide
  have hrg : ¬("red" = "green") := by decide
  have har : ¬("amber" = "red") := by decide
  have hag : ¬("amber" = "green") := by decide
  have hgr : ¬("green" = "red") := by decide
  have hga : ¬("green" = "amber") := by decide
  constructor
  · intro rate z mom
    simp only [fxStateRow, PFloat.gtB, PFloat.ltB, Bool.or_eq_true,
      Bool.and_eq_true, decide_eq_true_eq]
    split_ifs with h1 h2
    · exact ⟨iff_of_true rfl h1,
        iff_of_false hra (fun h => h.1 h1),
        iff_of_false hrg (fun h => h.1 h1)⟩
    · exact ⟨iff_of_false har h1,
        iff_of_true rfl ⟨h1, h2⟩,
        iff_of_false hag (fun h => h.2 h2)⟩
    · exact ⟨iff_of_false hgr h1,
        iff_of_false hga (fun h => h2 h.2),
        iff_of_true rfl ⟨h1, h2⟩⟩
  · constructor <;> norm_num [fxStateRow, PFloat.gtB, PFloat.ltB]

/-- Claim C9, counterexample to the amber characterization as stated: with
YoY 9 (above the band and at most 12) and MoM 0.5 the red branch fires first
(`mom > 0.4 and yoy > band[1]`), so the status is red, not amber; being
above the band and at most 12 is therefore not equivalent to amber. -/
theorem inflation_amber_counterexample :
    (8:ℚ) < 9 ∧ (9:ℚ) ≤ 12 ∧
    (inflationStateRow 6 8 (.fin 9) (.fin (1/2))).status = "red" ∧
    (inflationStateRow 6 8 (.fin 9) (.fin (1/2))).status ≠ "amber" := by
  have hred : (inflationStateRow 6 8 (.fin 9) (.fin (1/2))).status = "red" := by
    norm_num [inflationStateRow, PFloat.gtB, PFloat.ltB, PFloat.leB]
  refine ⟨by norm_num, by norm_num, hred, ?_⟩
  rw [hred]
  decide

/-- Claim C9 as amended: with the default band `[6, 8]`, `inflation_state`
is red exactly when `yoy > 12 or (mom > 0.4 and yoy > 8)`, amber exactly
when not red and `8 < yoy <= 12`, green otherwise — with the within-band
note exactly when `6 <= yoy <= 8` and the below-target note otherwise; in
particular YoY exactly 7 is always green. -/
theorem inflation_state_spec :
    (∀ yoy mom : ℚ,
      ((inflationStateRow 6 8 (.fin yoy) (.fin mom)).status = "red" ↔
        (12 < yoy ∨ (2/5 < mom ∧ 8 < yoy))) ∧
      ((inflationStateRow 6 8 (.fin yoy) (.fin mom)).status = "amber" ↔
        (¬(12 < yoy ∨ (2/5 < mom ∧ 8 < yoy)) ∧ (8 < yoy ∧ yoy ≤ 12))) ∧
      ((inflationStateRow 6 8 (.fin yoy) (.fin mom)).status = "green" ↔
        (¬(12 < yoy ∨ (2/5 < mom ∧ 8 < yoy)) ∧ ¬(8 < yoy ∧ yoy ≤ 12))) ∧
      ((inflationStateRow 6 8 (.fin yoy) (.fin mom)).commentary =
          "Inflation is within the central bank target range" ↔
        (¬(12 < yoy ∨ (2/5 < mom ∧ 8 < yoy)) ∧ ¬(8 < yoy ∧ yoy ≤ 12) ∧
          (6 ≤ yoy ∧ yoy ≤ 8))) ∧
      ((inflationStateRow 6 8 (.fin yoy) (.fin mom)).commentary =
          "Inflation is below target with easing price pressures" ↔
        (¬(12 < yoy ∨ (2/5 < mom ∧ 8 < yoy)) ∧ ¬(8 < yoy ∧ yoy ≤ 12) ∧
          ¬(6 ≤ yoy ∧ yoy ≤ 8)))) ∧
    (∀ mom : PFloat, (inflationStateRow 6 8 (.fin 7) mom).status = "green") := by
  have sra : ¬("red" = "amber") := by decide
  have srg : ¬("red" = "green") := by decide
  have sar : ¬("amber" = "red") := by decide
  have sag : ¬("amber" = "green") := by decide
  have sgr : ¬("green" = "red") := by decide
  have sga : ¬("green" = "amber") := by decide
  have cRW : ¬("Inflation is materially above target and re-accelerating" =
      "Inflation is within the central bank target range") := by decide
  have cRB : ¬("Inflation is materially above target and re-accelerating" =
      "Inflation is below target with easing price pressures") := by decide
  have cAW : ¬("Inflation remains above target with limited disinflation progress" =
      "Inflation is within the central bank target range") := by decide
  have cAB : ¬("Inflation remains above target with limited disinflation progress" =
      "Inflation is below target with easing price pressures") := by decide
  have cWB : ¬("Inflation is within the central bank target range" =
      "Inflation is below target with easing price pressures") := by decide
  have cBW : ¬("Inflation is below target with easing price pressures" =
      "Inflation is within the central bank target range") := by decide
  constructor
  · intro yoy mom
    simp only [inflationStateRow, PFloat.gtB, PFloat.ltB, PFloat.leB,
      Bool.or_eq_true, Bool.and_eq_true, decide_eq_true_eq]
    split_ifs with h1 h2 h3
    · exact ⟨iff_of_true rfl h1,
        iff_of_false sra (fun h => h.1 h1),
        iff_of_false srg (fun h => h.1 h1),
        iff_of_false cRW (fun h => h.1 h1),
        iff_of_false cRB (fun h => h.1 h1)⟩
    · exact ⟨iff_of_false sar h1,
        iff_of_true rfl ⟨h1, h2⟩,
        iff_of_false sag (fun h => h.2 h2),
        iff_of_false cAW (fun h => h.2.1 h2),
        iff_of_false cAB (fun h => h.2.1 h2)⟩
    · exact ⟨iff_of_false sgr h1,
        iff_of_false sga (fun h => h2 h.2),
        iff_of_true rfl ⟨h1, h2⟩,
        iff_of_true rfl ⟨h1, h2, h3⟩,
        iff_of_false cWB (fun h => h.2.2 h3)⟩
    · exact ⟨iff_of_false sgr h1,
        iff_of_false sga (fun h => h2 h.2),
        iff_of_true rfl ⟨h1, h2⟩,
        iff_of_false cBW (fun h => h3 h.2.2),
        iff_of_true rfl ⟨h1, h2, h3⟩⟩
  · intro mom
    norm_num [inflationStateRow, PFloat.gtB, PFloat.ltB, PFloat.leB]

/-- Claim C10: every value of the `FX_Stress_Index` column computed by
`compute_fx_stress_index` from numerically observed component z-scores lies
in the closed interval `[-3, 3]`, because the weighted component sum is
clipped to that interval before being returned. -/
theorem fx_stress_index_bounded (df : List FxZRow) :
    ∀ v ∈ compute_fx_stress_index df, -3 ≤ v ∧ v ≤ 3 := by
  intro v hv
  simp only [compute_fx_stress_index, List.mem_map] at hv
  obtain ⟨r, _, rfl⟩ := hv
  exact clip3_bounds _

/-- Witness for `fx_stress_index_bounded` on a one-row frame with an extreme
component z-score of 50, whose index value is exactly 3. -/
theorem fx_stress_index_bounded_witness :
    -3 ≤ (3:ℚ) ∧ (3:ℚ) ≤ 3 :=
  fx_stress_index_bounded [⟨50, -10, -10, -20⟩] 3
    (by norm_num [compute_fx_stress_index, fxStressIndexRow, clip3])

theorem insertByDate_length (r : RatesRow) (l : List RatesRow) :
    (insertByDate r l).length = l.length + 1 := by
  induction l with
  | nil => rfl
  | cons x xs ih =>
    simp only [insertByDate]
    split
    · simp
    · simp [ih]

theorem sortRates_length (df : List RatesRow) :
    (sortRates df).length = df.length := by
  induction df with
  | nil => rfl
  | cons x xs ih =>
    simp only [sortRates, List.foldr_cons] at *
    rw [insertByDate_length, ih, List.length_cons]

/-- Claim C1: on any rates table of exactly 5 monthly observations,
`compute_recession_probability` does not return a degraded Low result: the
rolling 6-month inversion count is NaN, and the commentary construction
applies Python `int` to it, which raises ValueError — the call crashes. -/
theorem recession_five_month_history_raises (df : List RatesRow)
    (h : df.length = 5) :
    compute_recession_probability df = .error "ValueError" := by
  have hlen : (sortRates df).length = 5 := by rw [sortRates_length, h]
  have hnan : inversionMonthsLast ((sortRates df).map termSpread) = .nan := by
    unfold inversionMonthsLast
    rw [if_neg]
    rw [List.length_map, hlen]
    omega
  have hne : sortRates df ≠ [] := by
    intro he
    rw [he] at hlen
    simp at hlen
  obtain ⟨lr, hl⟩ := Option.isSome_iff_exists.mp (List.getLast?_isSome.mpr hne)
  unfold compute_recession_probability
  rw [hl, hnan]
  rfl

/-- Witness for `recession_five_month_history_raises` on a concrete
five-month table. -/
theorem recession_five_month_history_raises_witness :
    ratesFiveMonths.length = 5 ∧
    compute_recession_probability ratesFiveMonths = .error "ValueError" :=
  ⟨by norm_num [ratesFiveMonths],
   recession_five_month_history_raises ratesFiveMonths
     (by norm_num [ratesFiveMonths])⟩

/-- Claim C6: on any rates table whose latest (date-sorted) term spread is
-1.2 percentage points, whose spread was negative in 5 of the last 6 months,
and whose 91-day yield rose 10 percent year over year, the sub-scores are
depth 1.0, duration 1.0 and policy 0.0, and `compute_recession_probability`
returns probability (0.4 + 0.4 + 0.0) * 100 = 80 with band High. -/
theorem recession_high_scenario (df : List RatesRow) (lr : RatesRow)
    (h1 : (sortRates df).getLast? = some lr)
    (h2 : termSpread lr = -(6/5))
    (h3 : inversionMonthsLast ((sortRates df).map termSpread) = .fin 5)
    (h4 : shortRateYoY ((sortRates df).map RatesRow.d91) = .fin 10) :
    depthScore (-(6/5)) = 1 ∧ durationScore (.fin 5) = 1 ∧
    policyScore (.fin 10) = 0 ∧
    compute_recession_probability df = .ok ⟨80, "High", -(6/5), .fin 5, 5⟩ := by
  refine ⟨by norm_num [depthScore],
    by norm_num [durationScore, PFloat.geB, PFloat.leB],
    by norm_num [policyScore, PFloat.gtB, PFloat.ltB], ?_⟩
  unfold compute_recession_probability
  rw [h1]
  show recessionFromMetrics (termSpread lr)
      (inversionMonthsLast ((sortRates df).map termSpread))
      (shortRateYoY ((sortRates df).map RatesRow.d91)) = _
  rw [h2, h3, h4]
  norm_num [recessionFromMetrics, PFloat.toInt, recessionProbability,
    depthScore, durationScore, policyScore, riskBand, PFloat.geB, PFloat.leB,
    PFloat.gtB, PFloat.ltB, Int.floor_intCast]

/-- Witness for `recession_high_scenario` on the concrete thirteen-month
table realizing the scenario. -/
theorem recession_high_scenario_witness :
    depthScore (-(6/5)) = 1 ∧ durationScore (.fin 5) = 1 ∧
    policyScore (.fin 10) = 0 ∧
    compute_recession_probability ratesScenarioHigh =
      .ok ⟨80, "High", -(6/5), .fin 5, 5⟩ :=
  recession_high_scenario ratesScenarioHigh ⟨12, 11, 49/5⟩
    (by norm_num [ratesScenarioHigh, sortRates, insertByDate])
    (by norm_num [termSpread])
    (by norm_num [ratesScenarioHigh, sortRates, insertByDate,
      inversionMonthsLast, termSpread, List.countP, List.countP.go])
    (by norm_num [ratesScenarioHigh, sortRates, insertByDate, shortRateYoY,
      PFloat.div, PFloat.mul])
